import Mathlib

/-!
Shallow embedding of the tc32-backend repository (two route handlers):

* `src/unnamed/part_000` — the Shopify `orders-paid` webhook handler:
  HMAC-SHA256 signature verification (`timingSafeEqual`, `verifyShopifyHmac`)
  followed by payload extraction.  Modelled in namespace `OrdersPaid`.
* `src/app/api/tc32/upload-preview/route.ts` — the asset publisher:
  `parseDataUrl`, the staged-upload / fileCreate / poll pipeline inside `POST`.
  Modelled in namespace `UploadPreview`.

Remote calls (`fetch`, Shopify GraphQL) and `JSON.parse` are impure library
operations; they are modelled by an explicit oracle record supplying each
call's outcome, and the handlers are pure functions of (env, oracle, request)
returning the HTTP response together with an observable trace (which remote
calls were made, how many polls, the sleeps performed, the `alt` text sent).

Node's `crypto` primitives used by the webhook handler are given a concrete
executable model: a full implementation of SHA-256, HMAC-SHA256, base64 and
UTF-8 over `List Nat` byte strings (machine words are `Nat` reduced `% 2^32`).
-/

set_option maxRecDepth 100000

namespace Crypto

/-- UTF-8 encoding of a single Unicode code point (as `Buffer.from(s, "utf8")`
performs per character). -/
def utf8Char (n : Nat) : List Nat :=
  if n < 128 then [n]
  else if n < 2048 then [192 ||| (n >>> 6), 128 ||| (n % 64)]
  else if n < 65536 then
    [224 ||| (n >>> 12), 128 ||| ((n >>> 6) % 64), 128 ||| (n % 64)]
  else
    [240 ||| (n >>> 18), 128 ||| ((n >>> 12) % 64), 128 ||| ((n >>> 6) % 64),
     128 ||| (n % 64)]

/-- UTF-8 byte string of a Lean string, modelling `Buffer.from(s, "utf8")`. -/
def utf8Bytes (s : String) : List Nat :=
  (s.data.map (fun c => utf8Char c.toNat)).flatten

/-- Right rotation of a 32-bit word represented as a `Nat` below `2^32`. -/
def rotr32 (n x : Nat) : Nat :=
  ((x >>> n) ||| (x <<< (32 - n))) % 4294967296

/-- SHA-256 big sigma-0 function. -/
def bigSigma0 (x : Nat) : Nat := rotr32 2 x ^^^ rotr32 13 x ^^^ rotr32 22 x

/-- SHA-256 big sigma-1 function. -/
def bigSigma1 (x : Nat) : Nat := rotr32 6 x ^^^ rotr32 11 x ^^^ rotr32 25 x

/-- SHA-256 small sigma-0 function. -/
def smallSigma0 (x : Nat) : Nat := rotr32 7 x ^^^ rotr32 18 x ^^^ (x >>> 3)

/-- SHA-256 small sigma-1 function. -/
def smallSigma1 (x : Nat) : Nat := rotr32 17 x ^^^ rotr32 19 x ^^^ (x >>> 10)

/-- SHA-256 choice function; bitwise not of a 32-bit word is xor with `2^32-1`. -/
def chF (x y z : Nat) : Nat := (x &&& y) ^^^ ((x ^^^ 4294967295) &&& z)

/-- SHA-256 majority function. -/
def majF (x y z : Nat) : Nat := (x &&& y) ^^^ (x &&& z) ^^^ (y &&& z)

/-- SHA-256 round constants (FIPS 180-4), written in decimal. -/
def K : List Nat :=
  [1116352408, 1899447441, 3049323471, 3921009573, 961987163,
   1508970993, 2453635748, 2870763221, 3624381080, 310598401,
   607225278, 1426881987, 1925078388, 2162078206, 2614888103,
   3248222580, 3835390401, 4022224774, 264347078, 604807628,
   770255983, 1249150122, 1555081692, 1996064986, 2554220882,
   2821834349, 2952996808, 3210313671, 3336571891, 3584528711,
   113926993, 338241895, 666307205, 773529912, 1294757372,
   1396182291, 1695183700, 1986661051, 2177026350, 2456956037,
   2730485921, 2820302411, 3259730800, 3345764771, 3516065817,
   3600352804, 4094571909, 275423344, 430227734, 506948616,
   659060556, 883997877, 958139571, 1322822218, 1537002063,
   1747873779, 1955562222, 2024104815, 2227730452, 2361852424,
   2428436474, 2756734187, 3204031479, 3329325298]

/-- SHA-256 initial hash state (FIPS 180-4), written in decimal. -/
def H0 : List Nat :=
  [1779033703, 3144134277, 1013904242, 2773480762,
   1359893119, 2600822924, 528734635, 1541459225]

/-- Split a list into chunks of `k` elements (fuel-driven so it reduces by
`rfl`); called with the list length as fuel. -/
def chunkList (k : Nat) : Nat → List Nat → List (List Nat)
  | 0, _ => []
  | _, [] => []
  | fuel + 1, l => l.take k :: chunkList k fuel (l.drop k)

/-- Big-endian 32-bit word from a 4-byte chunk. -/
def word32OfBytes (l : List Nat) : Nat :=
  l.foldl (fun acc b => acc * 256 + b) 0

/-- Big-endian bytes of a 32-bit word. -/
def bytesOfWord32 (w : Nat) : List Nat :=
  [(w >>> 24) % 256, (w >>> 16) % 256, (w >>> 8) % 256, w % 256]

/-- SHA-256 message padding: append `0x80`, zeros, and the 64-bit big-endian
bit length so the total length is a multiple of 64 bytes. -/
def padMessage (msg : List Nat) : List Nat :=
  let len := msg.length
  let bitLen := len * 8
  let zeros := (119 - (len % 64)) % 64
  msg ++ [128] ++ List.replicate zeros 0 ++
    [(bitLen >>> 56) % 256, (bitLen >>> 48) % 256, (bitLen >>> 40) % 256,
     (bitLen >>> 32) % 256, (bitLen >>> 24) % 256, (bitLen >>> 16) % 256,
     (bitLen >>> 8) % 256, bitLen % 256]

/-- Extend a 16-word block to the 64-word SHA-256 message schedule
(`n` is the number of words still to append). -/
def buildW : Nat → List Nat → List Nat
  | 0, w => w
  | n + 1, w =>
    let i := w.length
    let wi := (smallSigma1 (w.getD (i - 2) 0) + w.getD (i - 7) 0 +
               smallSigma0 (w.getD (i - 15) 0) + w.getD (i - 16) 0) % 4294967296
    buildW n (w ++ [wi])

/-- One SHA-256 compression round; the state is the 8-word list
`[a, b, c, d, e, f, g, h]`. -/
def compressRound (st : List Nat) (kw : Nat × Nat) : List Nat :=
  let a := st.getD 0 0
  let b := st.getD 1 0
  let c := st.getD 2 0
  let d := st.getD 3 0
  let e := st.getD 4 0
  let f := st.getD 5 0
  let g := st.getD 6 0
  let h := st.getD 7 0
  let t1 := (h + bigSigma1 e + chF e f g + kw.1 + kw.2) % 4294967296
  let t2 := (bigSigma0 a + majF a b c) % 4294967296
  [(t1 + t2) % 4294967296, a, b, c, (d + t1) % 4294967296, e, f, g]

/-- Process one 64-byte block of the padded message. -/
def processBlock (h : List Nat) (block : List Nat) : List Nat :=
  let w := buildW 48 ((chunkList 4 block.length block).map word32OfBytes)
  let st := (K.zip w).foldl compressRound h
  (h.zip st).map (fun p => (p.1 + p.2) % 4294967296)

/-- SHA-256 of a byte string, as a 32-byte string. -/
def sha256 (msg : List Nat) : List Nat :=
  let padded := padMessage msg
  ((chunkList 64 padded.length padded).foldl processBlock H0).map bytesOfWord32
    |>.flatten

/-- HMAC-SHA256 with byte-string key and message (RFC 2104), the algorithm of
Node's `crypto.createHmac("sha256", secret).update(body).digest()`. -/
def hmacSHA256 (key msg : List Nat) : List Nat :=
  let k0 := if 64 < key.length then sha256 key else key
  let kp := k0 ++ List.replicate (64 - k0.length) 0
  sha256 ((kp.map (fun b => b ^^^ 92)) ++ sha256 ((kp.map (fun b => b ^^^ 54)) ++ msg))

/-- Standard base64 alphabet. -/
def b64Alphabet : List Char :=
  "ABCDEFGHIJKLMNOPQRSTUVWXYZabcdefghijklmnopqrstuvwxyz0123456789+/".data

/-- Character for a 6-bit group. -/
def b64Char (n : Nat) : Char := b64Alphabet.getD n 'A'

/-- Base64 encoding of a byte string, three bytes at a time with `=` padding
(fuel-driven; called with the list length as fuel). -/
def base64Chars : Nat → List Nat → List Char
  | 0, _ => []
  | _, [] => []
  | _ + 1, [a] => [b64Char (a >>> 2), b64Char ((a % 4) <<< 4), '=', '=']
  | _ + 1, [a, b] =>
    [b64Char (a >>> 2), b64Char (((a % 4) <<< 4) ||| (b >>> 4)),
     b64Char ((b % 16) <<< 2), '=']
  | fuel + 1, a :: b :: c :: rest =>
    b64Char (a >>> 2) :: b64Char (((a % 4) <<< 4) ||| (b >>> 4)) ::
    b64Char (((b % 16) <<< 2) ||| (c >>> 6)) :: b64Char (c % 64) ::
    base64Chars fuel rest

/-- Base64 encoding of a byte string as a string, modelling `.digest("base64")`. -/
def base64Encode (bytes : List Nat) : String :=
  String.mk (base64Chars bytes.length bytes)

end Crypto

/-- JavaScript `opt || dflt` on an optional string: `null`/`undefined` and the
empty string are falsy and select the default. -/
def jsOrStr (o : Option String) (d : String) : String :=
  match o with
  | some s => if s = "" then d else s
  | none => d

/-- JavaScript truthiness filter on an optional string: keeps the value only
when it is a non-empty string, otherwise behaves as `null`. -/
def truthyStr (o : Option String) : Option String :=
  match o with
  | some s => if s = "" then none else some s
  | none => none

/-- JavaScript `a || b` for two nullable strings (the `x?.y || x?.z` chains in
both handlers): first truthy value, else `none` (JS `null`). -/
def jsFirstUrl (a b : Option String) : Option String :=
  match truthyStr a with
  | some s => some s
  | none => truthyStr b

/-- Shared helper `mustEnv` (defined identically in both source files):
`if (!v) throw new Error("Missing env: " + name); return v`.  A missing or
empty environment variable is falsy and throws. -/
def mustEnv (name : String) (v : Option String) : Except String String :=
  match v with
  | some s => if s = "" then Except.error ("Missing env: " ++ name) else Except.ok s
  | none => Except.error ("Missing env: " ++ name)

namespace OrdersPaid

/-- Accumulating XOR fold over zipped byte pairs together with the number of
byte operations performed: the comparison loop of a constant-time equality
check examines every index with no early exit.  Returns
`(accumulated difference bits, steps performed)`. -/
def xorFold : List (Nat × Nat) → Nat → Nat × Nat
  | [], acc => (acc, 0)
  | p :: rest, acc =>
    let r := xorFold rest (acc ||| (p.1 ^^^ p.2))
    (r.1, r.2 + 1)

/-- Model of Node's `crypto.timingSafeEqual(a, b)` (library code, not in this
repository), from its documented behaviour: it throws a `RangeError` when the
buffers differ in byte length, and otherwise compares all bytes in constant
time (XOR-accumulate over the full length, no data-dependent early exit). -/
def cryptoTimingSafeEqual (a b : List Nat) : Except String Bool :=
  if a.length = b.length then Except.ok ((xorFold (a.zip b) 0).1 == 0)
  else Except.error "Input buffers must have the same byte length"

/-- The wrapper `timingSafeEqual(a, b)` of the webhook route: UTF-8 encode both
strings, return `false` on a length mismatch (guarding the library call, which
would throw), else delegate to `crypto.timingSafeEqual`. -/
def timingSafeEqual (a b : String) : Except String Bool :=
  let ba := Crypto.utf8Bytes a
  let bb := Crypto.utf8Bytes b
  if ba.length ≠ bb.length then Except.ok false
  else cryptoTimingSafeEqual ba bb

/-- Number of byte operations the comparison performs on a pair of inputs,
the cost model for the constant-time property. -/
def ctSteps (a b : String) : Nat :=
  (xorFold ((Crypto.utf8Bytes a).zip (Crypto.utf8Bytes b)) 0).2

/-- The expression computed by `verifyShopifyHmac`'s `digest` local: the
base64-encoded HMAC-SHA256 of the raw body under the secret. -/
def hmacBase64 (secret body : String) : String :=
  Crypto.base64Encode
    (Crypto.hmacSHA256 (Crypto.utf8Bytes secret) (Crypto.utf8Bytes body))

/-- The route's `verifyShopifyHmac(rawBody, hmacHeader, secret)`: compare the
computed base64 digest against the supplied header with `timingSafeEqual`. -/
def verifyShopifyHmac (rawBody hmacHeader secret : String) : Except String Bool :=
  timingSafeEqual (hmacBase64 secret rawBody) hmacHeader

/-- JSON-like JavaScript value, distinguishing `undefined` from `null` because
the handler's field extraction produces both. -/
inductive JsValue where
  | undef : JsValue
  | null : JsValue
  | bool : Bool → JsValue
  | num : Int → JsValue
  | str : String → JsValue
  | arr : List JsValue → JsValue
  | obj : List (String × JsValue) → JsValue

/-- Field lookup in an object's field list; an absent key is `undefined`. -/
def lookupField : List (String × JsValue) → String → JsValue
  | [], _ => JsValue.undef
  | (k', v) :: rest, k => if k' = k then v else lookupField rest k

/-- Optional-chaining property access `payload?.k`: `undefined` unless the
value is an object carrying the key. -/
def getField : JsValue → String → JsValue
  | JsValue.obj fields, k => lookupField fields k
  | _, _ => JsValue.undef

/-- JavaScript truthiness of a value. -/
def JsValue.truthy : JsValue → Bool
  | JsValue.undef => false
  | JsValue.null => false
  | JsValue.bool b => b
  | JsValue.num n => n != 0
  | JsValue.str s => s != ""
  | JsValue.arr _ => true
  | JsValue.obj _ => true

/-- JavaScript `a || b` on values. -/
def jsOrJs (a b : JsValue) : JsValue := if a.truthy then a else b

/-- The event fields the handler extracts from the verified payload
(`payload?.id`, `payload?.name`, `payload?.financial_status`, and
`payload?.processed_at || payload?.updated_at || null`). -/
structure ExtractedFields where
  orderId : JsValue
  orderName : JsValue
  financialStatus : JsValue
  paidAt : JsValue

/-- Extraction of the logged event fields from the parsed payload. -/
def extractFields (payload : JsValue) : ExtractedFields :=
  ⟨getField payload "id", getField payload "name",
   getField payload "financial_status",
   jsOrJs (getField payload "processed_at")
     (jsOrJs (getField payload "updated_at") JsValue.null)⟩

/-- Inbound webhook request: the signature and informational headers
(`headers.get` yields `null` for an absent header) and the raw body text. -/
structure WebhookRequest where
  hmacHeader : Option String
  topic : Option String
  shopDomain : Option String
  webhookId : Option String
  rawBody : String

/-- Process environment and library oracle for one webhook invocation:
the configured secret, and the outcome `JSON.parse(raw)` would have on this
request's (non-empty) raw body — `Except.error` models a thrown parse error. -/
structure WebhookEnv where
  secret : Option String
  parseResult : Except String JsValue

/-- HTTP response of the webhook route: status plus the `ok`/`error` JSON
body fields. -/
structure WebhookResponse where
  status : Nat
  ok : Bool
  error : Option String

/-- Observable trace of one webhook invocation: whether an HMAC digest was
computed, whether `JSON.parse` was invoked, and the extracted fields (present
only when extraction was reached). -/
structure WebhookTrace where
  hmacComputed : Bool
  parseAttempted : Bool
  fields : Option ExtractedFields

/-- The catch-all handler `err?.message || "Internal error"` as a 500 response. -/
def catchResp (msg : String) : WebhookResponse :=
  ⟨500, false, some (if msg = "" then "Internal error" else msg)⟩

/-- The webhook route's `POST` handler as a pure function of the environment
oracle and the request, returning the response and the invocation trace. -/
def POST (env : WebhookEnv) (req : WebhookRequest) :
    WebhookResponse × WebhookTrace :=
  match mustEnv "SHOPIFY_WEBHOOK_SECRET" env.secret with
  | Except.error msg => (catchResp msg, ⟨false, false, none⟩)
  | Except.ok secret =>
    if jsOrStr req.hmacHeader "" = "" then
      (⟨401, false, some "Missing HMAC header"⟩, ⟨false, false, none⟩)
    else
      match verifyShopifyHmac req.rawBody (jsOrStr req.hmacHeader "") secret with
      | Except.error msg => (catchResp msg, ⟨true, false, none⟩)
      | Except.ok okHmac =>
        if okHmac = false then
          (⟨401, false, some "Invalid HMAC"⟩, ⟨true, false, none⟩)
        else
          if req.rawBody = "" then
            (⟨200, true, none⟩, ⟨true, false, some (extractFields (JsValue.obj []))⟩)
          else
            match env.parseResult with
            | Except.error msg => (catchResp msg, ⟨true, true, none⟩)
            | Except.ok payload =>
              (⟨200, true, none⟩, ⟨true, true, some (extractFields payload)⟩)

end OrdersPaid

namespace UploadPreview

/-- ASCII lowercasing for the regex's `/i` flag (its literals are all ASCII,
and non-Unicode canonicalization never maps non-ASCII onto ASCII). -/
def asciiLower (c : Char) : Char :=
  if 'A' ≤ c ∧ c ≤ 'Z' then Char.ofNat (c.toNat + 32) else c

/-- Match a literal, case-insensitively, at the front of the input, returning
the remaining input on success. -/
def matchLiteralCI : List Char → List Char → Option (List Char)
  | [], s => some s
  | _ :: _, [] => none
  | p :: ps, c :: cs =>
    if asciiLower c = asciiLower p then matchLiteralCI ps cs else none

/-- Line terminators that JavaScript's `.` (without the `s` flag) never
matches. -/
def isLineTerm (c : Char) : Bool :=
  c = Char.ofNat 10 ∨ c = Char.ofNat 13 ∨ c = Char.ofNat 0x2028 ∨ c = Char.ofNat 0x2029

/-- Execution of the route's regex on a character list, returning the two
capture groups (mime, base64 payload) on a match.  The first group is forced
to end at the first semicolon (its class excludes the semicolon), the literal
follows case-insensitively, and the payload must be non-empty, reach the end
of input, and contain no line terminator. -/
def execDataUrlRegex (s : List Char) : Option (List Char × List Char) :=
  match matchLiteralCI "data:".data s with
  | none => none
  | some r1 =>
    let mimeCs := r1.takeWhile (fun c => c ≠ ';')
    match r1.dropWhile (fun c => c ≠ ';') with
    | ';' :: r2 =>
      if mimeCs.isEmpty then none
      else
        match matchLiteralCI "base64,".data r2 with
        | none => none
        | some payload =>
          if payload.isEmpty then none
          else if payload.any isLineTerm then none
          else some (mimeCs, payload)
    | _ => none

/-- Result of `parseDataUrl`: the mime capture and the base64 payload capture.
The source then computes `buffer = Buffer.from(b64, "base64")`; no claim
inspects the decoded bytes, so the model carries the undecoded capture. -/
structure DataUrlParts where
  mime : String
  b64 : String

/-- The route's `parseDataUrl(dataUrl)`: run the regex on `dataUrl || ""` and
throw the fixed Spanish validation message when it does not match. -/
def parseDataUrl (dataUrl : String) : Except String DataUrlParts :=
  match execDataUrlRegex dataUrl.data with
  | none => Except.error "dataUrl inválido (esperaba data:*/*;base64,...)"
  | some (mimeCs, b64Cs) => Except.ok ⟨String.mk mimeCs, String.mk b64Cs⟩

/-- GraphQL user error `{field, message}`. -/
structure UserError where
  field : List String
  message : String

/-- Staged upload target returned by `stagedUploadsCreate`. -/
structure StagedTarget where
  url : String
  resourceUrl : String
  parameters : List (String × String)

/-- Payload of the `stagedUploadsCreate` mutation response. -/
structure StagedUploadsCreatePayload where
  stagedTargets : List StagedTarget
  userErrors : List UserError

/-- The `image` object of a `MediaImage` file (`image.url` may be absent or
null). -/
structure FileImage where
  url : Option String

/-- One file of the `fileCreate` response: id, status, and the two possible
url carriers (`MediaImage.image.url` and `GenericFile.url`). -/
structure CreatedFile where
  id : String
  fileStatus : String
  image : Option FileImage
  url : Option String

/-- Payload of the `fileCreate` mutation response. -/
structure FileCreatePayload where
  files : List CreatedFile
  userErrors : List UserError

/-- The object returned by the polling `node(id:)` query (the `node` field
itself may be null). -/
structure NodeObj where
  image : Option FileImage
  url : Option String

/-- Process environment of the publisher route. -/
structure PublisherEnv where
  shop : Option String
  token : Option String

/-- Oracle fixing the outcome of each outbound network call of one publish
invocation: the `stagedUploadsCreate` GraphQL result, the staging upload's
HTTP success flag and error body text, the `fileCreate` GraphQL result, and
the result of the i-th `node` poll query.  `Except.error` models a thrown
`shopifyGraphql` failure (HTTP non-2xx or GraphQL `errors`). -/
structure PublisherOracle where
  stagedResult : Except String StagedUploadsCreatePayload
  uploadOk : Bool
  uploadErrorText : String
  fileCreateResult : Except String FileCreatePayload
  nodeResult : Nat → Except String (Option NodeObj)

/-- Parsed JSON body of the publisher request (`groupId` and `areaKey` are
optional). -/
structure PublishRequest where
  dataUrl : String
  filename : String
  groupId : Option String
  areaKey : Option String

/-- The `extra` field of an error response: GraphQL user errors, the staging
upload's response text, or the pending payload `{id, image}`. -/
inductive ExtraVal where
  | userErrors : List UserError → ExtraVal
  | text : String → ExtraVal
  | pending : String → Option FileImage → ExtraVal

/-- JSON response of the publisher route, as the union of the fields the
handler ever emits. -/
structure ApiResp where
  status : Nat
  ok : Bool
  error : Option String
  key : Option String
  id : Option String
  url : Option String
  extra : Option ExtraVal

/-- Observable trace of one publish invocation: which remote stages were
invoked, the `alt` text sent with `fileCreate`, the number of `node` poll
queries issued, and the sleep durations (ms) performed before them. -/
structure PublishTrace where
  stagedCalled : Bool
  uploadCalled : Bool
  fileCreateCalled : Bool
  fileCreateAlt : Option String
  pollCount : Nat
  sleepsMs : List Nat

/-- The catch-all handler `e?.message || "Internal error"` as a 500 response. -/
def catchResp (msg : String) : ApiResp :=
  ⟨500, false, some (if msg = "" then "Internal error" else msg),
   none, none, none, none⟩

/-- `shopifyGraphql`'s environment validation followed by the oracle-supplied
call outcome: `mustEnv` on the shop domain and access token runs before every
GraphQL request. -/
def shopifyGraphqlStep {α : Type} (env : PublisherEnv) (outcome : Except String α) :
    Except String α :=
  match mustEnv "SHOPIFY_SHOP_DOMAIN" env.shop with
  | Except.error e => Except.error e
  | Except.ok _ =>
    match mustEnv "SHOPIFY_ADMIN_ACCESS_TOKEN" env.token with
    | Except.error e => Except.error e
    | Except.ok _ => outcome

/-- The url the handler reads off a created file:
`created?.image?.url || created?.url || null` with JS truthiness. -/
def createdUrlOf (f : CreatedFile) : Option String :=
  jsFirstUrl (f.image.bind FileImage.url) f.url

/-- The url the handler reads off a poll response:
`n?.image?.url || n?.url || null` with JS truthiness (`n` may be null). -/
def nodeUrlOf : Option NodeObj → Option String
  | none => none
  | some o => jsFirstUrl (o.image.bind FileImage.url) o.url

/-- The polling loop `for (let i = 0; i < 6; i++)`: sleep 800ms, query the
node, break on a truthy url; a thrown query propagates.  Returns the result
(`none` when the budget is exhausted with no url), the number of queries
issued, and the sleeps performed.  Structural on the remaining fuel. -/
def pollLoop (env : PublisherEnv) (node : Nat → Except String (Option NodeObj)) :
    Nat → Nat → Except String (Option String) × Nat × List Nat
  | _, 0 => (Except.ok none, 0, [])
  | i, fuel + 1 =>
    match shopifyGraphqlStep env (node i) with
    | Except.error msg => (Except.error msg, 1, [800])
    | Except.ok n =>
      match nodeUrlOf n with
      | some u => (Except.ok (some u), 1, [800])
      | none =>
        match pollLoop env node (i + 1) fuel with
        | (r, c, s) => (r, c + 1, 800 :: s)

/-- The `alt` label sent with `fileCreate`, from the source template joining
the defaulted group and area with a single underscore. -/
def altOf (req : PublishRequest) : String :=
  jsOrStr req.groupId "TC32" ++ "_" ++ jsOrStr req.areaKey "HERO"

/-- The `key` of a success response, from the source template joining the
defaulted group and area with a double underscore. -/
def keyOf (req : PublishRequest) : String :=
  jsOrStr req.groupId "TC32" ++ "__" ++ jsOrStr req.areaKey "HERO"

/-- The publisher route's `POST` handler as a pure function of the
environment, the network oracle and the parsed request body, returning the
JSON response and the invocation trace.  (The body is taken already parsed:
no claim concerns a request whose body is not valid JSON.) -/
def POST (env : PublisherEnv) (oracle : PublisherOracle) (req : PublishRequest) :
    ApiResp × PublishTrace :=
  if req.dataUrl = "" ∨ req.filename = "" then
    (⟨400, false, some "Falta dataUrl o filename", none, none, none, none⟩,
     ⟨false, false, false, none, 0, []⟩)
  else
    match parseDataUrl req.dataUrl with
    | Except.error msg => (catchResp msg, ⟨false, false, false, none, 0, []⟩)
    | Except.ok _ =>
      match shopifyGraphqlStep env oracle.stagedResult with
      | Except.error msg => (catchResp msg, ⟨true, false, false, none, 0, []⟩)
      | Except.ok stagedData =>
        match stagedData.userErrors with
        | e :: es =>
          (⟨400, false, some "stagedUploadsCreate error", none, none, none,
            some (ExtraVal.userErrors (e :: es))⟩,
           ⟨true, false, false, none, 0, []⟩)
        | [] =>
          match stagedData.stagedTargets.head? with
          | none =>
            (⟨500, false, some "No recibí staged target", none, none, none, none⟩,
             ⟨true, false, false, none, 0, []⟩)
          | some staged =>
            if staged.url = "" ∨ staged.resourceUrl = "" then
              (⟨500, false, some "No recibí staged target", none, none, none, none⟩,
               ⟨true, false, false, none, 0, []⟩)
            else
              if oracle.uploadOk = false then
                (⟨500, false, some "Error subiendo a staged url", none, none, none,
                  some (ExtraVal.text oracle.uploadErrorText)⟩,
                 ⟨true, true, false, none, 0, []⟩)
              else
                match shopifyGraphqlStep env oracle.fileCreateResult with
                | Except.error msg =>
                  (catchResp msg, ⟨true, true, true, some (altOf req), 0, []⟩)
                | Except.ok createData =>
                  match createData.userErrors with
                  | e :: es =>
                    (⟨400, false, some "fileCreate error", none, none, none,
                      some (ExtraVal.userErrors (e :: es))⟩,
                     ⟨true, true, true, some (altOf req), 0, []⟩)
                  | [] =>
                    match createData.files.head? with
                    | none =>
                      (⟨500, false, some "Archivo creado pero sin ID", none, none,
                        none, none⟩,
                       ⟨true, true, true, some (altOf req), 0, []⟩)
                    | some created =>
                      if created.id = "" then
                        (⟨500, false, some "Archivo creado pero sin ID", none, none,
                          none, none⟩,
                         ⟨true, true, true, some (altOf req), 0, []⟩)
                      else
                        match createdUrlOf created with
                        | some u =>
                          (⟨200, true, none, some (keyOf req),
                            some created.id, some u, none⟩,
                           ⟨true, true, true, some (altOf req), 0, []⟩)
                        | none =>
                          match pollLoop env oracle.nodeResult 0 6 with
                          | (Except.error msg, polls, sleeps) =>
                            (catchResp msg,
                             ⟨true, true, true, some (altOf req), polls, sleeps⟩)
                          | (Except.ok none, polls, sleeps) =>
                            (⟨500, false, some "Archivo creado pero no recibí URL",
                              none, none, none,
                              some (ExtraVal.pending created.id created.image)⟩,
                             ⟨true, true, true, some (altOf req), polls, sleeps⟩)
                          | (Except.ok (some u), polls, sleeps) =>
                            (⟨200, true, none, some (keyOf req),
                              some created.id, some u, none⟩,
                             ⟨true, true, true, some (altOf req), polls, sleeps⟩)

/-- A created file offers a url `u` when one of the two url carriers of the
`fileCreate` response holds it. -/
def fileOffersUrl (f : CreatedFile) (u : String) : Prop :=
  f.image.bind FileImage.url = some u ∨ f.url = some u

/-- A poll response offers a url `u` when its node object carries it. -/
def nodeOffersUrl (n : Option NodeObj) (u : String) : Prop :=
  ∃ o, n = some o ∧ (o.image.bind FileImage.url = some u ∨ o.url = some u)

/-- A url `u` was supplied by the platform during this invocation: it appears
in the `fileCreate` response's first file, or in some poll response. -/
def platformOffered (env : PublisherEnv) (oracle : PublisherOracle) (u : String) :
    Prop :=
  (∃ p f, shopifyGraphqlStep env oracle.fileCreateResult = Except.ok p ∧
     p.files.head? = some f ∧ fileOffersUrl f u) ∨
  (∃ i n, shopifyGraphqlStep env (oracle.nodeResult i) = Except.ok n ∧
     nodeOffersUrl n u)

/-- Fixture: a fully configured publisher environment. -/
def envOk : PublisherEnv := ⟨some "tc32.myshopify.com", some "token"⟩

/-- Fixture: a well-formed publish request with no group or area supplied. -/
def reqOk : PublishRequest := ⟨"data:image/png;base64,AAAA", "preview.png", none, none⟩

/-- Fixture: a publish request whose dataUrl does not match the regex. -/
def reqBadDataUrl : PublishRequest := ⟨"hello", "preview.png", none, none⟩

/-- Fixture: a publish request with explicit group and an empty area. -/
def reqDefaults : PublishRequest :=
  ⟨"data:image/png;base64,AAAA", "preview.png", none, some ""⟩

/-- Fixture: a usable staged target. -/
def stagedTarget0 : StagedTarget :=
  ⟨"https://upload.example", "https://resource.example", []⟩

/-- Fixture: a staging response with one usable target and no user errors. -/
def stagedOk : StagedUploadsCreatePayload := ⟨[stagedTarget0], []⟩

/-- Fixture: a created file that already carries an image url. -/
def fileReady0 : CreatedFile :=
  ⟨"gid1", "READY", some ⟨some "https://img.example/a.png"⟩, none⟩

/-- Fixture: a created file with no url yet. -/
def filePending0 : CreatedFile := ⟨"gid1", "PROCESSING", none, none⟩

/-- Fixture: a `fileCreate` response whose file already carries an image url. -/
def fileReady : FileCreatePayload := ⟨[fileReady0], []⟩

/-- Fixture: a `fileCreate` response whose file has no url yet. -/
def filePending : FileCreatePayload := ⟨[filePending0], []⟩

/-- Fixture: platform oracle where registration already returns the url
(the poll oracle is never consulted). -/
def oracleRegReady : PublisherOracle :=
  ⟨Except.ok stagedOk, true, "", Except.ok fileReady, fun _ => Except.error "unused"⟩

/-- Fixture: platform oracle where the file never becomes ready — every poll
answers with a node carrying no url. -/
def oracleNeverReady : PublisherOracle :=
  ⟨Except.ok stagedOk, true, "", Except.ok filePending,
   fun _ => Except.ok (some ⟨none, none⟩)⟩

end UploadPreview

namespace OrdersPaid

/-- Fixture: webhook environment with secret `"s"` and a parse oracle
yielding an empty object. -/
def envW : WebhookEnv := ⟨some "s", Except.ok (JsValue.obj [])⟩

/-- Fixture: request with no signature header. -/
def reqNoHmac : WebhookRequest := ⟨none, none, none, none, ""⟩

/-- Fixture: request whose signature header does not match the digest. -/
def reqBadSig : WebhookRequest := ⟨some "x", none, none, none, ""⟩

/-- Fixture: empty-body request signed with the correct digest under `"s"`. -/
def reqSignedEmpty : WebhookRequest :=
  ⟨some (hmacBase64 "s" ""), none, none, none, ""⟩

end OrdersPaid

-- Known-answer checks validating the crypto model against published vectors.

example : Crypto.sha256 (Crypto.utf8Bytes "abc") =
    [0xba, 0x78, 0x16, 0xbf, 0x8f, 0x01, 0xcf, 0xea, 0x41, 0x41, 0x40, 0xde,
     0x5d, 0xae, 0x22, 0x23, 0xb0, 0x03, 0x61, 0xa3, 0x96, 0x17, 0x7a, 0x9c,
     0xb4, 0x10, 0xff, 0x61, 0xf2, 0x00, 0x15, 0xad] := by decide

example : Crypto.sha256 [] =
    [0xe3, 0xb0, 0xc4, 0x42, 0x98, 0xfc, 0x1c, 0x14, 0x9a, 0xfb, 0xf4, 0xc8,
     0x99, 0x6f, 0xb9, 0x24, 0x27, 0xae, 0x41, 0xe4, 0x64, 0x9b, 0x93, 0x4c,
     0xa4, 0x95, 0x99, 0x1b, 0x78, 0x52, 0xb8, 0x55] := by decide

example : Crypto.hmacSHA256 (Crypto.utf8Bytes "Jefe")
      (Crypto.utf8Bytes "what do ya want for nothing?") =
    [0x5b, 0xdc, 0xc1, 0x46, 0xbf, 0x60, 0x75, 0x4e, 0x6a, 0x04, 0x24, 0x26,
     0x08, 0x95, 0x75, 0xc7, 0x5a, 0x00, 0x3f, 0x08, 0x9d, 0x27, 0x39, 0x83,
     0x9d, 0xec, 0x58, 0xb9, 0x64, 0xec, 0x38, 0x43] := by decide

example : Crypto.base64Encode (Crypto.utf8Bytes "Man") = "TWFu" := by decide

example : Crypto.base64Encode (Crypto.utf8Bytes "Ma") = "TWE=" := by decide

example : Crypto.base64Encode (Crypto.utf8Bytes "M") = "TQ==" := by decide

-- Sanity checks that the handler models evaluate as the source does on
-- concrete scenarios.

example : UploadPreview.parseDataUrl "data:image/png;base64,iVBOR" =
    Except.ok ⟨"image/png", "iVBOR"⟩ := rfl

example : (UploadPreview.parseDataUrl "data:;base64,AAAA").isOk = false := rfl

example : (UploadPreview.parseDataUrl "image/png;base64,AAAA").isOk = false := rfl

example : (UploadPreview.POST UploadPreview.envOk UploadPreview.oracleRegReady
    UploadPreview.reqOk).1 =
    ⟨200, true, none, some "TC32__HERO", some "gid1",
     some "https://img.example/a.png", none⟩ := rfl

example : (UploadPreview.POST UploadPreview.envOk UploadPreview.oracleRegReady
    UploadPreview.reqOk).2.pollCount = 0 := rfl

example : (UploadPreview.POST UploadPreview.envOk UploadPreview.oracleNeverReady
    UploadPreview.reqOk).1.status = 500 := rfl

example : (UploadPreview.POST UploadPreview.envOk UploadPreview.oracleNeverReady
    UploadPreview.reqOk).2.pollCount = 6 := rfl

example : (UploadPreview.POST UploadPreview.envOk UploadPreview.oracleRegReady
    UploadPreview.reqBadDataUrl).1.status = 500 := rfl

example : (OrdersPaid.POST OrdersPaid.envW OrdersPaid.reqSignedEmpty).1.status = 200 := rfl

example : (OrdersPaid.POST OrdersPaid.envW OrdersPaid.reqBadSig).1.status = 401 := rfl

namespace OrdersPaid

/-- The XOR fold of a list zipped with itself accumulates nothing and performs
one step per element. -/
theorem xorFold_zip_self (l : List Nat) (acc : Nat) :
    xorFold (l.zip l) acc = (acc, l.length) := by
  induction l generalizing acc with
  | nil => rfl
  | cons a t ih =>
    rw [List.zip_cons_cons]
    simp only [xorFold, Nat.xor_self, Nat.or_zero, ih, List.length_cons]

/-- The XOR fold performs exactly one step per pair, independently of the
pair contents. -/
theorem xorFold_steps (ps : List (Nat × Nat)) (acc : Nat) :
    (xorFold ps acc).2 = ps.length := by
  induction ps generalizing acc with
  | nil => rfl
  | cons p t ih => simp [xorFold, ih]

/-- Comparing a string against itself succeeds. -/
theorem timingSafeEqual_self (s : String) : timingSafeEqual s s = Except.ok true := by
  unfold timingSafeEqual cryptoTimingSafeEqual
  simp [xorFold_zip_self]

end OrdersPaid

/-- C3: for every secret and every body, verifying the body against the
base64-encoded HMAC-SHA256 of that body computed with the same secret returns
true: `verifyShopifyHmac(body, hmac(body, secret), secret) == true`. -/
theorem C3_verify_roundtrip (secret body : String) :
    OrdersPaid.verifyShopifyHmac body (OrdersPaid.hmacBase64 secret body) secret =
      Except.ok true :=
  OrdersPaid.timingSafeEqual_self (OrdersPaid.hmacBase64 secret body)

/-- C8: the signature comparison first rejects on a length mismatch,
returning `false` without throwing (it never throws), and for equal-length
inputs its cost — the number of byte operations performed — depends only on
the common length, not on the content or on where the first differing byte
occurs. -/
theorem C8_comparison_props (a b : String) :
    ((Crypto.utf8Bytes a).length ≠ (Crypto.utf8Bytes b).length →
      OrdersPaid.timingSafeEqual a b = Except.ok false) ∧
    (∃ r, OrdersPaid.timingSafeEqual a b = Except.ok r) ∧
    (∀ a' b' : String,
      (Crypto.utf8Bytes a).length = (Crypto.utf8Bytes b).length →
      (Crypto.utf8Bytes a').length = (Crypto.utf8Bytes b').length →
      (Crypto.utf8Bytes a).length = (Crypto.utf8Bytes a').length →
      OrdersPaid.ctSteps a b = OrdersPaid.ctSteps a' b') := by
  refine ⟨fun h => ?_, ?_, fun a' b' hab hab' haa' => ?_⟩
  · unfold OrdersPaid.timingSafeEqual
    rw [if_pos h]
  · unfold OrdersPaid.timingSafeEqual OrdersPaid.cryptoTimingSafeEqual
    by_cases h : (Crypto.utf8Bytes a).length = (Crypto.utf8Bytes b).length
    · rw [if_neg (by simp [h]), if_pos h]
      exact ⟨_, rfl⟩
    · rw [if_pos h]
      exact ⟨false, rfl⟩
  · unfold OrdersPaid.ctSteps
    rw [OrdersPaid.xorFold_steps, OrdersPaid.xorFold_steps,
      List.length_zip, List.length_zip, ← hab, ← hab', ← haa']

/-- C8 witness: the length-mismatch rejection and the content-independent
cost, instantiated at concrete inputs. -/
theorem C8_witness :
    OrdersPaid.timingSafeEqual "ab" "c" = Except.ok false ∧
    OrdersPaid.ctSteps "aa" "ab" = OrdersPaid.ctSteps "ba" "bb" := by
  constructor
  · exact (C8_comparison_props "ab" "c").1 (by decide)
  · exact (C8_comparison_props "aa" "ab").2.2 "ba" "bb" (by decide) (by decide)
      (by decide)

/-- C6: with a configured secret, a webhook request whose signature header
does not verify is answered `401 {ok:false,error:"Invalid HMAC"}` with the
body never parsed, and a missing (or empty) header is answered 401 before any
HMAC digest is computed. -/
theorem C6_invalid_hmac_rejected (env : OrdersPaid.WebhookEnv)
    (req : OrdersPaid.WebhookRequest) (s : String)
    (hs : env.secret = some s) (hs' : s ≠ "") :
    (jsOrStr req.hmacHeader "" = "" →
      OrdersPaid.POST env req =
        (⟨401, false, some "Missing HMAC header"⟩, ⟨false, false, none⟩)) ∧
    (jsOrStr req.hmacHeader "" ≠ "" →
      OrdersPaid.verifyShopifyHmac req.rawBody (jsOrStr req.hmacHeader "") s =
        Except.ok false →
      OrdersPaid.POST env req =
        (⟨401, false, some "Invalid HMAC"⟩, ⟨true, false, none⟩)) := by
  have hm : mustEnv "SHOPIFY_WEBHOOK_SECRET" env.secret = Except.ok s := by
    rw [hs]; simp [mustEnv, hs']
  constructor
  · intro h
    simp [OrdersPaid.POST, hm, h]
  · intro h hv
    simp [OrdersPaid.POST, hm, h, hv]

/-- C6 witness: concrete 401 responses for a missing header and for a
mismatched signature. -/
theorem C6_witness :
    OrdersPaid.POST OrdersPaid.envW OrdersPaid.reqNoHmac =
      (⟨401, false, some "Missing HMAC header"⟩, ⟨false, false, none⟩) ∧
    OrdersPaid.POST OrdersPaid.envW OrdersPaid.reqBadSig =
      (⟨401, false, some "Invalid HMAC"⟩, ⟨true, false, none⟩) := by
  constructor
  · exact (C6_invalid_hmac_rejected _ _ "s" rfl (by decide)).1 rfl
  · exact (C6_invalid_hmac_rejected _ _ "s" rfl (by decide)).2 (by decide) (by rfl)

/-- C10: if signature verification succeeds on an empty raw body, the handler
treats the payload as an empty object without invoking `JSON.parse` — every
extracted field defaults (`paidAt` to null, the others to undefined) — and
responds `200 {ok:true}`; and `JSON.parse` is only ever invoked on a
non-empty body, so a parse error can only arise for one. -/
theorem C10_empty_body (env : OrdersPaid.WebhookEnv)
    (req : OrdersPaid.WebhookRequest) :
    (∀ s, env.secret = some s → s ≠ "" → req.rawBody = "" →
      jsOrStr req.hmacHeader "" ≠ "" →
      OrdersPaid.verifyShopifyHmac req.rawBody (jsOrStr req.hmacHeader "") s =
        Except.ok true →
      OrdersPaid.POST env req =
        (⟨200, true, none⟩,
         ⟨true, false,
          some ⟨OrdersPaid.JsValue.undef, OrdersPaid.JsValue.undef,
                OrdersPaid.JsValue.undef, OrdersPaid.JsValue.null⟩⟩)) ∧
    ((OrdersPaid.POST env req).2.parseAttempted = true → req.rawBody ≠ "") := by
  constructor
  · intro s hs hs' hraw hh hv
    have hm : mustEnv "SHOPIFY_WEBHOOK_SECRET" env.secret = Except.ok s := by
      rw [hs]; simp [mustEnv, hs']
    rw [hraw] at hv
    simp [OrdersPaid.POST, hm, hh, hv, hraw, OrdersPaid.extractFields,
      OrdersPaid.getField, OrdersPaid.jsOrJs, OrdersPaid.JsValue.truthy,
      OrdersPaid.lookupField]
  · intro hpa
    by_contra hraw
    unfold OrdersPaid.POST at hpa
    rw [hraw] at hpa
    repeat' split at hpa
    all_goals simp_all

/-- C10 witness: the correctly signed empty-body request yields 200 with the
defaulted fields and no parse attempt. -/
theorem C10_witness :
    OrdersPaid.POST OrdersPaid.envW OrdersPaid.reqSignedEmpty =
      (⟨200, true, none⟩,
       ⟨true, false,
        some ⟨OrdersPaid.JsValue.undef, OrdersPaid.JsValue.undef,
              OrdersPaid.JsValue.undef, OrdersPaid.JsValue.null⟩⟩) :=
  (C10_empty_body _ _).1 "s" rfl (by decide) rfl (by decide) (by rfl)

namespace UploadPreview

/-- The only error message `parseDataUrl` ever throws is the fixed validation
message. -/
theorem parseDataUrl_error_msg (s m : String)
    (h : parseDataUrl s = Except.error m) :
    m = "dataUrl inválido (esperaba data:*/*;base64,...)" := by
  unfold parseDataUrl at h
  split at h
  · injection h with h1
    exact h1.symm
  · simp at h

/-- A truthy result is the underlying value. -/
theorem truthyStr_eq_some (o : Option String) (u : String)
    (h : truthyStr o = some u) : o = some u := by
  cases o with
  | none => simp [truthyStr] at h
  | some s =>
    by_cases hs : s = ""
    · simp [truthyStr, hs] at h
    · simp [truthyStr, hs] at h
      rw [h]

/-- A url selected by the `a || b || null` chain comes from one of the two
operands. -/
theorem jsFirstUrl_eq_some (a b : Option String) (u : String)
    (h : jsFirstUrl a b = some u) : a = some u ∨ b = some u := by
  unfold jsFirstUrl at h
  split at h
  next s heq =>
    injection h with h1
    exact Or.inl (truthyStr_eq_some a u (h1 ▸ heq))
  next heq => exact Or.inr (truthyStr_eq_some b u h)

/-- A url read off a created file is offered by that file's response data. -/
theorem createdUrlOf_offers (f : CreatedFile) (u : String)
    (h : createdUrlOf f = some u) : fileOffersUrl f u :=
  jsFirstUrl_eq_some _ _ _ h

/-- A url read off a poll response is offered by that response's node. -/
theorem nodeUrlOf_offers (n : Option NodeObj) (u : String)
    (h : nodeUrlOf n = some u) : nodeOffersUrl n u := by
  cases n with
  | none => simp [nodeUrlOf] at h
  | some o => exact ⟨o, rfl, jsFirstUrl_eq_some _ _ _ h⟩

/-- The polling loop sleeps exactly 800ms before each query it issues, and
issues at most `fuel` queries. -/
theorem pollLoop_sleeps (env : PublisherEnv)
    (node : Nat → Except String (Option NodeObj)) :
    ∀ fuel i r c s, pollLoop env node i fuel = (r, c, s) →
      s = List.replicate c 800 ∧ c ≤ fuel := by
  intro fuel
  induction fuel with
  | zero =>
    intro i r c s h
    injection h with h1 h2
    injection h2 with h2 h3
    subst h2 h3
    exact ⟨rfl, Nat.le_refl 0⟩
  | succ k ih =>
    intro i r c s h
    simp only [pollLoop] at h
    split at h
    · injection h with h1 h2
      injection h2 with h2 h3
      subst h2 h3
      exact ⟨rfl, by omega⟩
    · split at h
      · injection h with h1 h2
        injection h2 with h2 h3
        subst h2 h3
        exact ⟨rfl, by omega⟩
      · injection h with h1 h2
        injection h2 with h2 h3
        subst h2 h3
        obtain ⟨ha, hb⟩ := ih (i + 1) (pollLoop env node (i + 1) k).1
          (pollLoop env node (i + 1) k).2.1 (pollLoop env node (i + 1) k).2.2 rfl
        exact ⟨by rw [ha, List.replicate_succ], Nat.succ_le_succ hb⟩

/-- When the polling loop returns a url, some poll query answered with a node
offering that url. -/
theorem pollLoop_ok_some (env : PublisherEnv)
    (node : Nat → Except String (Option NodeObj)) :
    ∀ fuel i c s u, pollLoop env node i fuel = (Except.ok (some u), c, s) →
      ∃ j n, shopifyGraphqlStep env (node j) = Except.ok n ∧ nodeOffersUrl n u := by
  intro fuel
  induction fuel with
  | zero =>
    intro i c s u h
    injection h with h1 h2
    simp at h1
  | succ k ih =>
    intro i c s u h
    simp only [pollLoop] at h
    split at h
    · injection h with h1 h2
      simp at h1
    · split at h
      · rename_i n heq o u' hu
        injection h with h1 h2
        injection h1 with h1
        injection h1 with h1
        exact ⟨i, n, heq, nodeUrlOf_offers n u (h1 ▸ hu)⟩
      · injection h with h1 h2
        exact ih (i + 1) (pollLoop env node (i + 1) k).2.1
          (pollLoop env node (i + 1) k).2.2 u (by rw [← h1])

/-- When every poll query answers with a node offering no url, the loop
exhausts its entire budget, sleeping 800ms each time. -/
theorem pollLoop_exhaust (env : PublisherEnv)
    (node : Nat → Except String (Option NodeObj))
    (hall : ∀ i, ∃ n, shopifyGraphqlStep env (node i) = Except.ok n ∧
      nodeUrlOf n = none) :
    ∀ fuel i, pollLoop env node i fuel =
      (Except.ok none, fuel, List.replicate fuel 800) := by
  intro fuel
  induction fuel with
  | zero => intro i; rfl
  | succ k ih =>
    intro i
    obtain ⟨n, hn, hu⟩ := hall i
    simp only [pollLoop]
    rw [hn]
    simp [hu, ih (i + 1), List.replicate_succ]

end UploadPreview

/-- C5 counterexample: a non-empty dataUrl that does not match the regex
(`"hello"`) is answered with status 500, not 400 as claimed, though indeed
with no remote call made. -/
theorem C5_counterexample :
    (UploadPreview.POST UploadPreview.envOk UploadPreview.oracleRegReady
      UploadPreview.reqBadDataUrl).1.status = 500 ∧
    (UploadPreview.POST UploadPreview.envOk UploadPreview.oracleRegReady
      UploadPreview.reqBadDataUrl).1.status ≠ 400 ∧
    (UploadPreview.POST UploadPreview.envOk UploadPreview.oracleRegReady
      UploadPreview.reqBadDataUrl).2.stagedCalled = false ∧
    (UploadPreview.POST UploadPreview.envOk UploadPreview.oracleRegReady
      UploadPreview.reqBadDataUrl).2.uploadCalled = false ∧
    (UploadPreview.POST UploadPreview.envOk UploadPreview.oracleRegReady
      UploadPreview.reqBadDataUrl).2.fileCreateCalled = false ∧
    (UploadPreview.POST UploadPreview.envOk UploadPreview.oracleRegReady
      UploadPreview.reqBadDataUrl).2.pollCount = 0 :=
  ⟨rfl, by decide, rfl, rfl, rfl, rfl⟩

/-- C5 amended: for every non-empty dataUrl (with a non-empty filename) that
does not match the `data:<mime>;base64,` pattern, the Publisher makes no
remote calls and responds 500 — via the generic catch handler — with the
human-readable validation reason thrown by `parseDataUrl`.  (An empty or
absent dataUrl is instead answered 400 "Falta dataUrl o filename".) -/
theorem C5_amended_malformed_dataurl_500 (env : UploadPreview.PublisherEnv)
    (oracle : UploadPreview.PublisherOracle) (req : UploadPreview.PublishRequest)
    (h1 : req.dataUrl ≠ "") (h2 : req.filename ≠ "")
    (hm : ∃ m, UploadPreview.parseDataUrl req.dataUrl = Except.error m) :
    UploadPreview.POST env oracle req =
      (⟨500, false, some "dataUrl inválido (esperaba data:*/*;base64,...)",
        none, none, none, none⟩,
       ⟨false, false, false, none, 0, []⟩) := by
  obtain ⟨m, hm⟩ := hm
  have hmsg := UploadPreview.parseDataUrl_error_msg _ _ hm
  subst hmsg
  unfold UploadPreview.POST
  rw [if_neg (show ¬(req.dataUrl = "" ∨ req.filename = "") from by
    simp [h1, h2]), hm]
  rfl

/-- C5 witness: the concrete malformed dataUrl `"hello"` produces exactly the
500 validation response with an untouched trace. -/
theorem C5_witness :
    UploadPreview.POST UploadPreview.envOk UploadPreview.oracleRegReady
      UploadPreview.reqBadDataUrl =
      (⟨500, false, some "dataUrl inválido (esperaba data:*/*;base64,...)",
        none, none, none, none⟩,
       ⟨false, false, false, none, 0, []⟩) :=
  C5_amended_malformed_dataurl_500 _ _ _ (by decide) (by decide) ⟨_, rfl⟩

/-- C7: when the `fileCreate` (register) response already carries a truthy
url, the Publisher returns success with that url and issues zero poll
queries (and performs zero sleeps). -/
theorem C7_register_url_skips_polling (env : UploadPreview.PublisherEnv)
    (oracle : UploadPreview.PublisherOracle) (req : UploadPreview.PublishRequest)
    (sp : UploadPreview.StagedUploadsCreatePayload)
    (st : UploadPreview.StagedTarget) (cp : UploadPreview.FileCreatePayload)
    (f : UploadPreview.CreatedFile) (u : String)
    (h1 : req.dataUrl ≠ "") (h2 : req.filename ≠ "")
    (hp : ∃ parts, UploadPreview.parseDataUrl req.dataUrl = Except.ok parts)
    (hs : UploadPreview.shopifyGraphqlStep env oracle.stagedResult = Except.ok sp)
    (hue : sp.userErrors = [])
    (hhd : sp.stagedTargets.head? = some st)
    (hu : st.url ≠ "") (hr : st.resourceUrl ≠ "")
    (hup : oracle.uploadOk = true)
    (hc : UploadPreview.shopifyGraphqlStep env oracle.fileCreateResult = Except.ok cp)
    (hce : cp.userErrors = [])
    (hf : cp.files.head? = some f)
    (hid : f.id ≠ "")
    (hurl : UploadPreview.createdUrlOf f = some u) :
    UploadPreview.POST env oracle req =
      (⟨200, true, none, some (UploadPreview.keyOf req), some f.id, some u, none⟩,
       ⟨true, true, true, some (UploadPreview.altOf req), 0, []⟩) := by
  obtain ⟨parts, hp⟩ := hp
  simp [UploadPreview.POST, hp, hs, hue, hhd, hup, hc, hce, hf, hurl,
    h1, h2, hu, hr, hid, UploadPreview.keyOf, UploadPreview.altOf]

/-- C7 witness: with a register response already carrying the image url, the
result is the 200 success and the trace records zero polls and zero sleeps. -/
theorem C7_witness :
    UploadPreview.POST UploadPreview.envOk UploadPreview.oracleRegReady
      UploadPreview.reqOk =
      (⟨200, true, none, some "TC32__HERO", some "gid1",
        some "https://img.example/a.png", none⟩,
       ⟨true, true, true, some "TC32_HERO", 0, []⟩) :=
  C7_register_url_skips_polling UploadPreview.envOk UploadPreview.oracleRegReady
    UploadPreview.reqOk UploadPreview.stagedOk UploadPreview.stagedTarget0
    UploadPreview.fileReady UploadPreview.fileReady0 "https://img.example/a.png"
    (by decide) (by decide) ⟨_, rfl⟩ rfl rfl rfl (by decide) (by decide) rfl rfl
    rfl rfl (by decide) rfl

/-- C1 counterexample: with the file created but never reporting a url within
the poll budget, the response status is 500 — not 202 as claimed — with
`ok:false` and `extra` carrying the created id. -/
theorem C1_counterexample :
    (UploadPreview.POST UploadPreview.envOk UploadPreview.oracleNeverReady
      UploadPreview.reqOk).1.status = 500 ∧
    (UploadPreview.POST UploadPreview.envOk UploadPreview.oracleNeverReady
      UploadPreview.reqOk).1.status ≠ 202 ∧
    (UploadPreview.POST UploadPreview.envOk UploadPreview.oracleNeverReady
      UploadPreview.reqOk).1.ok = false ∧
    (UploadPreview.POST UploadPreview.envOk UploadPreview.oracleNeverReady
      UploadPreview.reqOk).1.extra =
      some (UploadPreview.ExtraVal.pending "gid1" none) :=
  ⟨rfl, by decide, rfl, rfl⟩

/-- C1 amended: when the file was created (an id was obtained) but no truthy
url appeared in the register response nor within the 6-attempt poll budget,
the Publisher returns — rather than throwing — a distinguishable result with
HTTP status 500, `ok:false`, error "Archivo creado pero no recibí URL", and
`extra` carrying the created file id and the register response's image object
(null when absent). -/
theorem C1_amended_pending_returns_500 (env : UploadPreview.PublisherEnv)
    (oracle : UploadPreview.PublisherOracle) (req : UploadPreview.PublishRequest)
    (sp : UploadPreview.StagedUploadsCreatePayload)
    (st : UploadPreview.StagedTarget) (cp : UploadPreview.FileCreatePayload)
    (f : UploadPreview.CreatedFile)
    (h1 : req.dataUrl ≠ "") (h2 : req.filename ≠ "")
    (hp : ∃ parts, UploadPreview.parseDataUrl req.dataUrl = Except.ok parts)
    (hs : UploadPreview.shopifyGraphqlStep env oracle.stagedResult = Except.ok sp)
    (hue : sp.userErrors = [])
    (hhd : sp.stagedTargets.head? = some st)
    (hu : st.url ≠ "") (hr : st.resourceUrl ≠ "")
    (hup : oracle.uploadOk = true)
    (hc : UploadPreview.shopifyGraphqlStep env oracle.fileCreateResult = Except.ok cp)
    (hce : cp.userErrors = [])
    (hf : cp.files.head? = some f)
    (hid : f.id ≠ "")
    (hurl : UploadPreview.createdUrlOf f = none)
    (hall : ∀ i, ∃ n, UploadPreview.shopifyGraphqlStep env (oracle.nodeResult i) =
      Except.ok n ∧ UploadPreview.nodeUrlOf n = none) :
    UploadPreview.POST env oracle req =
      (⟨500, false, some "Archivo creado pero no recibí URL", none, none, none,
        some (UploadPreview.ExtraVal.pending f.id f.image)⟩,
       ⟨true, true, true, some (UploadPreview.altOf req), 6,
        List.replicate 6 800⟩) := by
  obtain ⟨parts, hp⟩ := hp
  have hpoll := UploadPreview.pollLoop_exhaust env oracle.nodeResult hall 6 0
  simp [UploadPreview.POST, hp, hs, hue, hhd, hup, hc, hce, hf, hurl, hpoll,
    h1, h2, hu, hr, hid, UploadPreview.altOf]

/-- C1 witness: the never-ready oracle yields exactly the 500 pending-style
response with the created id preserved, after the full 6-poll budget. -/
theorem C1_witness :
    UploadPreview.POST UploadPreview.envOk UploadPreview.oracleNeverReady
      UploadPreview.reqOk =
      (⟨500, false, some "Archivo creado pero no recibí URL", none, none, none,
        some (UploadPreview.ExtraVal.pending "gid1" none)⟩,
       ⟨true, true, true, some "TC32_HERO", 6, List.replicate 6 800⟩) :=
  C1_amended_pending_returns_500 UploadPreview.envOk UploadPreview.oracleNeverReady
    UploadPreview.reqOk UploadPreview.stagedOk UploadPreview.stagedTarget0
    UploadPreview.filePending UploadPreview.filePending0
    (by decide) (by decide) ⟨_, rfl⟩ rfl rfl rfl (by decide) (by decide) rfl rfl
    rfl rfl (by decide) rfl (fun i => ⟨some ⟨none, none⟩, rfl, rfl⟩)

/-- C2 counterexample: with a platform that never reports ready, the poll
budget is exhausted after exactly 6 attempts — not the claimed default of
approximately 10–12 — and nothing in the request can configure it. -/
theorem C2_counterexample :
    (UploadPreview.POST UploadPreview.envOk UploadPreview.oracleNeverReady
      UploadPreview.reqOk).2.pollCount = 6 ∧
    ¬ (10 ≤ (UploadPreview.POST UploadPreview.envOk UploadPreview.oracleNeverReady
      UploadPreview.reqOk).2.pollCount) :=
  ⟨rfl, by decide⟩

/-- C2 amended: the poll stage waits a fixed (not exponential) interval of
800ms before every attempt, and the budget is a hardcoded 6 attempts (about
a 4.8-second ceiling); neither the count nor the interval is
caller-configurable. -/
theorem C2_amended_fixed_interval (env : UploadPreview.PublisherEnv)
    (oracle : UploadPreview.PublisherOracle) (req : UploadPreview.PublishRequest)
    (resp : UploadPreview.ApiResp) (tr : UploadPreview.PublishTrace)
    (h : UploadPreview.POST env oracle req = (resp, tr)) :
    tr.sleepsMs = List.replicate tr.pollCount 800 ∧ tr.pollCount ≤ 6 := by
  unfold UploadPreview.POST at h
  repeat' split at h
  all_goals injection h with hA hB
  all_goals subst hB
  all_goals try exact ⟨rfl, by norm_num⟩
  all_goals rename_i heq
  all_goals exact UploadPreview.pollLoop_sleeps _ _ _ _ _ _ _ heq

/-- C4 counterexample: when the register response already carries the url,
the Publisher returns a success with a non-null url after zero polls, so a
non-null url is not always preceded by at least one poll observation. -/
theorem C4_counterexample :
    (UploadPreview.POST UploadPreview.envOk UploadPreview.oracleRegReady
      UploadPreview.reqOk).1.ok = true ∧
    (UploadPreview.POST UploadPreview.envOk UploadPreview.oracleRegReady
      UploadPreview.reqOk).1.url = some "https://img.example/a.png" ∧
    (UploadPreview.POST UploadPreview.envOk UploadPreview.oracleRegReady
      UploadPreview.reqOk).2.pollCount = 0 :=
  ⟨rfl, rfl, rfl⟩

/-- C4 amended: every success response carrying a non-null url took that url
verbatim from a platform response — either from the `fileCreate` register
response's file or from some poll response — so the system never fabricates
a URL; the register-response case involves zero polls. -/
theorem C4_amended_url_from_platform (env : UploadPreview.PublisherEnv)
    (oracle : UploadPreview.PublisherOracle) (req : UploadPreview.PublishRequest)
    (resp : UploadPreview.ApiResp) (tr : UploadPreview.PublishTrace) (u : String)
    (h : UploadPreview.POST env oracle req = (resp, tr))
    (hok : resp.ok = true) (hurl : resp.url = some u) :
    UploadPreview.platformOffered env oracle u := by
  unfold UploadPreview.POST at h
  repeat' split at h
  all_goals injection h with hA hB
  all_goals subst hA
  all_goals simp [UploadPreview.catchResp] at hok
  · simp at hurl
    subst hurl
    rename_i createData heqc xa heqe xb created heqf hidne o s hcu
    exact Or.inl ⟨createData, created, heqc, heqf,
      UploadPreview.createdUrlOf_offers _ _ hcu⟩
  · simp at hurl
    subst hurl
    rename_i u' polls sleeps heqp
    exact Or.inr (UploadPreview.pollLoop_ok_some env oracle.nodeResult 6 0
      polls sleeps u' heqp)

/-- C4 witness: the amended origin property at the register-ready oracle. -/
theorem C4_witness :
    UploadPreview.platformOffered UploadPreview.envOk UploadPreview.oracleRegReady
      "https://img.example/a.png" :=
  C4_amended_url_from_platform UploadPreview.envOk UploadPreview.oracleRegReady
    UploadPreview.reqOk
    (UploadPreview.POST UploadPreview.envOk UploadPreview.oracleRegReady
      UploadPreview.reqOk).1
    (UploadPreview.POST UploadPreview.envOk UploadPreview.oracleRegReady
      UploadPreview.reqOk).2
    "https://img.example/a.png" rfl rfl rfl

/-- C9: every success response's `key` joins the defaulted group and area
with a double underscore while the `alt` label sent at registration joins the
same two values with a single underscore, and `jsOrStr` substitutes the
defaults "TC32" / "HERO" exactly when the field is absent or empty. -/
theorem C9_defaults_key_alt (env : UploadPreview.PublisherEnv)
    (oracle : UploadPreview.PublisherOracle) (req : UploadPreview.PublishRequest)
    (resp : UploadPreview.ApiResp) (tr : UploadPreview.PublishTrace)
    (h : UploadPreview.POST env oracle req = (resp, tr)) (hok : resp.ok = true) :
    (resp.key =
        some (jsOrStr req.groupId "TC32" ++ "__" ++ jsOrStr req.areaKey "HERO") ∧
      tr.fileCreateAlt =
        some (jsOrStr req.groupId "TC32" ++ "_" ++ jsOrStr req.areaKey "HERO")) ∧
    (∀ d, jsOrStr none d = d) ∧ (∀ d, jsOrStr (some "") d = d) := by
  refine ⟨?_, fun d => rfl, fun d => rfl⟩
  unfold UploadPreview.POST at h
  repeat' split at h
  all_goals injection h with hA hB
  all_goals subst hA
  all_goals subst hB
  all_goals simp [UploadPreview.catchResp] at hok
  all_goals exact ⟨rfl, rfl⟩

/-- C9 witness: with `groupId` absent and `areaKey` empty, the key is
`"TC32__HERO"` and the registration alt is `"TC32_HERO"`. -/
theorem C9_witness :
    (UploadPreview.POST UploadPreview.envOk UploadPreview.oracleRegReady
      UploadPreview.reqDefaults).1.key = some "TC32__HERO" ∧
    (UploadPreview.POST UploadPreview.envOk UploadPreview.oracleRegReady
      UploadPreview.reqDefaults).2.fileCreateAlt = some "TC32_HERO" :=
  (C9_defaults_key_alt UploadPreview.envOk UploadPreview.oracleRegReady
    UploadPreview.reqDefaults
    (UploadPreview.POST UploadPreview.envOk UploadPreview.oracleRegReady
      UploadPreview.reqDefaults).1
    (UploadPreview.POST UploadPreview.envOk UploadPreview.oracleRegReady
      UploadPreview.reqDefaults).2
    rfl rfl).1

/-- C2 witness: the amended property evaluated on the never-ready oracle. -/
theorem C2_witness :
    (UploadPreview.POST UploadPreview.envOk UploadPreview.oracleNeverReady
      UploadPreview.reqOk).2.sleepsMs =
      List.replicate (UploadPreview.POST UploadPreview.envOk
        UploadPreview.oracleNeverReady UploadPreview.reqOk).2.pollCount 800 ∧
    (UploadPreview.POST UploadPreview.envOk UploadPreview.oracleNeverReady
      UploadPreview.reqOk).2.pollCount ≤ 6 :=
  C2_amended_fixed_interval UploadPreview.envOk UploadPreview.oracleNeverReady
    UploadPreview.reqOk
    (UploadPreview.POST UploadPreview.envOk UploadPreview.oracleNeverReady
      UploadPreview.reqOk).1
    (UploadPreview.POST UploadPreview.envOk UploadPreview.oracleNeverReady
      UploadPreview.reqOk).2 rfl
